import Mathlib

/-!
Verification development for the wizard web application:
a Next.js client component (business wizard), a Claude completion relay
route, and a wizard business API route. Definitions are shallow embeddings
of the TypeScript source; theorems settle the specification's claims.
-/

namespace WizardApp

/-! JavaScript builtin semantics used by the source. -/

/-- Models the JS expression `x || d` for an optional string slot:
`undefined` and the empty string are falsy. -/
def jsOrStr (v : Option String) (d : String) : String :=
  match v with
  | none => d
  | some s => if s = "" then d else s

/-- Models the JS expression `x || d` for an optional number slot:
`undefined` and `0` are falsy. -/
def jsOrInt (v : Option Int) (d : Int) : Int :=
  match v with
  | none => d
  | some n => if n = 0 then d else n

/-- Models JS template-literal interpolation of a possibly-undefined string:
an absent value prints as the literal text "undefined". -/
def jsInterp (v : Option String) : String :=
  match v with
  | none => "undefined"
  | some s => s

/-- Whitespace recognizer for the model of the JS String.trim builtin. -/
def isSpaceChar (c : Char) : Bool :=
  c == ' ' || c == '\t' || c == '\n' || c == '\r'

/-- Models the JS String.trim builtin (strip leading and trailing whitespace). -/
def jsTrim (s : String) : String :=
  (((s.toList.dropWhile isSpaceChar).reverse.dropWhile isSpaceChar).reverse).asString

/-- Checks whether the pattern is a leading segment of the list. -/
def occursAt : List Char → List Char → Bool
  | _, [] => true
  | [], _ :: _ => false
  | a :: as, b :: bs => a == b && occursAt as bs

/-- Checks whether the pattern occurs contiguously anywhere in the list. -/
def hasSub : List Char → List Char → Bool
  | [], sub => occursAt [] sub
  | c :: t, sub => occursAt (c :: t) sub || hasSub t sub

/-- Executable substring test on strings. -/
def strContainsB (s sub : String) : Bool :=
  hasSub s.toList sub.toList

/-- Propositional substring containment on strings. -/
def StrContains (s sub : String) : Prop :=
  ∃ pre post, s = pre ++ sub ++ post

/-! Data model: the wizard answer record (BusinessData in part_002 and
the zod schema of route.ts share these fields). -/

structure BusinessData where
  businessName : Option String := none
  industry : Option String := none
  targetMarket : Option String := none
  currentRevenue : Option String := none
  primaryChallenges : Option (List String) := none
  timeWasters : Option (List String) := none
  costCenters : Option (List String) := none
  competitors : Option (List String) := none
  differentiators : Option (List String) := none
  marketPosition : Option String := none
  aiGoals : Option (List String) := none
  budget : Option String := none
  timeline : Option String := none
  teamReadiness : Option String := none
  kpis : Option (List String) := none
  successCriteria : Option String := none
  reportingFrequency : Option String := none
deriving DecidableEq, Repr

/-! Embedding of src/app/api/wizard/business/route.ts. -/

/-- Step-keyed insight table of generateStepInsights (route.ts lines 47-53).
Returns none exactly when the JS object lookup insights[step] is undefined. -/
def insightForStep (step : Int) : Option String :=
  if step = 1 then some "Based on your business foundation, consider focusing on B2B automation tools to scale efficiently."
  else if step = 2 then some "Your challenges suggest high potential for AI-driven process automation and customer service bots."
  else if step = 3 then some "Your competitive position indicates opportunities for AI-powered differentiation strategies."
  else if step = 4 then some "Your AI goals align well with quick-win opportunities in customer service and data analytics."
  else if step = 5 then some "Your success metrics suggest focusing on measurable ROI from AI implementations."
  else none

/-- Generic fallback insight of generateStepInsights (route.ts line 56). -/
def genericInsight : String :=
  "Continue to the next step for more insights."

/-- Fixed suggestion list of generateStepInsights (route.ts lines 57-61). -/
def fixedSuggestions : List String :=
  [ "Consider implementing chatbot automation",
    "Focus on data analytics for competitive advantage",
    "Automate repetitive customer service tasks" ]

structure StepInsightsResponse where
  insights : String
  suggestions : List String
deriving DecidableEq, Repr

/-- Embeds generateStepInsights (route.ts lines 46-63): the data argument is
accepted but never consulted; the insight is insights[step] with the JS
fallback via the or-operator. -/
def generateStepInsights (_data : BusinessData) (step : Int) : StepInsightsResponse :=
  { insights := jsOrStr (insightForStep step) genericInsight,
    suggestions := fixedSuggestions }

structure QuickWin where
  action : String
  impact : String
  tools : List String
  timeframe : String
  budget : Option String := none
deriving DecidableEq, Repr

structure StrategicInitiative where
  initiative : String
  description : String
  timeframe : String
  budget : String
  roi : String
deriving DecidableEq, Repr

structure Roadmap where
  phase1 : String
  phase2 : String
  phase3 : String
deriving DecidableEq, Repr

structure TechStackItem where
  tool : String
  purpose : String
  integration : String
deriving DecidableEq, Repr

structure SuccessMetric where
  metric : String
  target : String
  measurement : String
deriving DecidableEq, Repr

structure RiskItem where
  risk : String
  mitigation : String
deriving DecidableEq, Repr

structure ServerPlan where
  executiveSummary : String
  quickWins : List QuickWin
  strategicInitiatives : List StrategicInitiative
  implementationRoadmap : Roadmap
  techStack : List TechStackItem
  successMetrics : List SuccessMetric
  competitiveAdvantages : List String
  riskMitigation : List RiskItem
deriving DecidableEq, Repr

/-- Static quickWins content of generateBusinessPlan (route.ts lines 67-89). -/
def serverQuickWins : List QuickWin :=
  [ { action := "Implement AI-powered customer service chatbot",
      impact := "Reduce response time by 80% and support costs by 60%",
      tools := ["ChatGPT API", "Intercom", "Zendesk"],
      timeframe := "30 days",
      budget := some "$2,000-5,000" },
    { action := "Automate data entry and reporting processes",
      impact := "Save 15+ hours per week on manual tasks",
      tools := ["Zapier", "Microsoft Power Automate", "Google Apps Script"],
      timeframe := "45 days",
      budget := some "$1,000-3,000" },
    { action := "Deploy AI content generation for marketing",
      impact := "Increase content output by 300% while reducing costs",
      tools := ["GPT-4", "Jasper", "Copy.ai"],
      timeframe := "60 days",
      budget := some "$500-1,500" } ]

/-- Static strategicInitiatives content of generateBusinessPlan (route.ts lines 90-114). -/
def serverInitiatives : List StrategicInitiative :=
  [ { initiative := "Predictive Analytics Platform",
      description := "Implement AI-driven analytics to predict customer behavior, optimize inventory, and identify growth opportunities",
      timeframe := "3-6 months",
      budget := "$15,000-30,000",
      roi := "200-400% within 12 months" },
    { initiative := "Intelligent CRM System",
      description := "AI-enhanced customer relationship management with automated lead scoring, personalized communications, and predictive sales forecasting",
      timeframe := "4-8 months",
      budget := "$20,000-40,000",
      roi := "150-300% within 18 months" },
    { initiative := "Process Automation Suite",
      description := "Comprehensive automation of core business processes including invoicing, scheduling, inventory management, and quality control",
      timeframe := "6-12 months",
      budget := "$25,000-50,000",
      roi := "300-500% within 24 months" } ]

/-- Static implementationRoadmap content of generateBusinessPlan (route.ts lines 115-119). -/
def serverRoadmap : Roadmap :=
  { phase1 := "Foundation Building (Months 1-2): Deploy quick wins, establish data infrastructure, train team on AI tools",
    phase2 := "Strategic Implementation (Months 3-6): Launch predictive analytics, enhance customer systems, optimize processes",
    phase3 := "Market Domination (Months 7-12): Scale AI capabilities, develop competitive moats, expand market presence" }

/-- Static techStack content of generateBusinessPlan (route.ts lines 120-141). -/
def serverTechStack : List TechStackItem :=
  [ { tool := "OpenAI GPT-4 API",
      purpose := "Natural language processing, content generation, customer service automation",
      integration := "API integration with existing systems, custom prompts for business-specific use cases" },
    { tool := "Zapier/Microsoft Power Automate",
      purpose := "Workflow automation and system integration",
      integration := "Connect existing tools and automate repetitive tasks across platforms" },
    { tool := "Tableau/Power BI + AI Analytics",
      purpose := "Advanced data visualization and predictive analytics",
      integration := "Connect to business databases for real-time insights and forecasting" },
    { tool := "HubSpot/Salesforce with AI",
      purpose := "Intelligent customer relationship management",
      integration := "AI-enhanced lead scoring, automated follow-ups, predictive sales analytics" } ]

/-- Static successMetrics content of generateBusinessPlan (route.ts lines 142-163). -/
def serverMetrics : List SuccessMetric :=
  [ { metric := "Customer Service Efficiency",
      target := "80% reduction in response time, 60% cost savings",
      measurement := "Track response times, resolution rates, and support costs monthly" },
    { metric := "Revenue Growth",
      target := "25-40% increase in annual revenue through AI optimization",
      measurement := "Monthly revenue tracking with AI attribution analysis" },
    { metric := "Operational Efficiency",
      target := "50% reduction in manual task time",
      measurement := "Time tracking on automated vs manual processes weekly" },
    { metric := "Customer Satisfaction",
      target := "90%+ satisfaction score with AI-enhanced service",
      measurement := "Monthly NPS surveys and customer feedback analysis" } ]

/-- Static competitiveAdvantages content of generateBusinessPlan (route.ts lines 164-170). -/
def serverAdvantages : List String :=
  [ "24/7 AI-powered customer service",
    "Predictive analytics for market opportunities",
    "Automated quality control and consistency",
    "Personalized customer experiences at scale",
    "Data-driven decision making across all departments" ]

/-- Static riskMitigation content of generateBusinessPlan (route.ts lines 171-184). -/
def serverRisks : List RiskItem :=
  [ { risk := "AI implementation complexity",
      mitigation := "Phased rollout with extensive testing and team training" },
    { risk := "Data privacy and security concerns",
      mitigation := "Implement robust security protocols and compliance measures" },
    { risk := "Employee resistance to change",
      mitigation := "Comprehensive training programs and change management support" } ]

/-- Executive summary of generateBusinessPlan (route.ts line 66):
template literal with JS or-defaults on businessName and industry. -/
def serverSummary (data : BusinessData) : String :=
  "Transform " ++ jsOrStr data.businessName "your business" ++
  " into an AI-powered " ++ jsOrStr data.industry "industry" ++
  " leader through strategic automation, intelligent customer engagement, and data-driven decision making."

/-- Embeds generateBusinessPlan (route.ts lines 65-187). The source contains
no outbound call of any kind: the plan is a pure literal whose only
data-dependent part is the executive summary template. -/
def generateBusinessPlan (data : BusinessData) : ServerPlan :=
  { executiveSummary := serverSummary data,
    quickWins := serverQuickWins,
    strategicInitiatives := serverInitiatives,
    implementationRoadmap := serverRoadmap,
    techStack := serverTechStack,
    successMetrics := serverMetrics,
    competitiveAdvantages := serverAdvantages,
    riskMitigation := serverRisks }

inductive WizardAction
  | stepInsights
  | generatePlan
deriving DecidableEq, Repr

/-- Parsed body of a schema-valid POST request to the wizard business route. -/
structure WizardRequest where
  action : WizardAction
  data : BusinessData
  step : Option Int := none
deriving DecidableEq, Repr

inductive ApiResponse
  | insights (r : StepInsightsResponse)
  | plan (p : ServerPlan)
deriving DecidableEq, Repr

/-- Embeds the dispatch of POST (route.ts lines 33-37) on a schema-valid body:
stepInsights passes step with the JS or-default 1; generatePlan passes data. -/
def wizardPOST (req : WizardRequest) : ApiResponse :=
  match req.action with
  | .stepInsights => .insights (generateStepInsights req.data (jsOrInt req.step 1))
  | .generatePlan => .plan (generateBusinessPlan req.data)

/-! Embedding of the completion relay route (src/unnamed/part_000). -/

/-- JSON body returned by the relay route, together with its HTTP status. -/
structure RelayResponse where
  status : Nat
  success : Bool
  content : Option String := none
  errMsg : Option String := none
  fallback : Bool := false
deriving DecidableEq, Repr

/-- Outcome of the outbound fetch to the external provider:
either the fetch throws, or it yields a response with an ok flag, a status,
and the optional first text segment of the reply body. -/
inductive FetchOutcome
  | networkError (msg : String)
  | response (ok : Bool) (status : Nat) (firstText : Option String)
deriving DecidableEq, Repr

/-- Embeds POST of part_000 (lines 3-51). The credential check (lines 7-9)
throws inside the route's own try block, so the catch (lines 43-50) turns
it into the same per-request 500 failure body used for provider errors.
A non-ok provider response throws with the interpolated status message;
an ok response unwraps the first text segment with the JS or-default. -/
def relayPOST (apiKey : Option String) (f : FetchOutcome) : RelayResponse :=
  match apiKey with
  | none =>
      { status := 500, success := false,
        errMsg := some "ANTHROPIC_API_KEY not configured", fallback := true }
  | some _ =>
      match f with
      | .networkError msg =>
          { status := 500, success := false,
            errMsg := some msg, fallback := true }
      | .response ok status firstText =>
          if ok then
            { status := 200, success := true,
              content := some (jsOrStr firstText "No response generated") }
          else
            { status := 500, success := false,
              errMsg := some ("Claude API error: " ++ toString status),
              fallback := true }

/-- Shape of the ordinary per-request failure body of the relay
(part_000 lines 44-49): HTTP 500, success false, fallback true. -/
def isPerRequestFailure (r : RelayResponse) : Bool :=
  r.status == 500 && r.success == false && r.fallback == true

/-! Embedding of the client component (src/unnamed/part_002). -/

/-- JSON values, as produced by the JSON.parse builtin. -/
inductive Json
  | null
  | boolean (b : Bool)
  | number (n : Int)
  | str (s : String)
  | array (elems : List Json)
  | object (fields : List (String × Json))

/-- Key lookup in a JSON object's binding list (first binding wins, as in
a JS object literal). -/
def lookupField : List (String × Json) → String → Option Json
  | [], _ => none
  | (k, v) :: rest, key => if k = key then some v else lookupField rest key

/-- Field lookup in a JSON object. -/
def getField (j : Json) (key : String) : Option Json :=
  match j with
  | .object fields => lookupField fields key
  | _ => none

/-- Embeds callClaudeAPI (part_002 lines 68-92) applied to the relay's
response body: on success it returns the content; every non-success body
(fallback flag or error) makes it throw, modelled as none. -/
def callClaudeAPI (resp : RelayResponse) : Option String :=
  if resp.success then resp.content else none

/-- Executive summary of the client fallback plan (part_002 line 553):
template literal interpolating only data.businessName, with the JS
rendering "undefined" when the field is absent. -/
def clientFallbackSummary (data : BusinessData) : String :=
  "Transform " ++ jsInterp data.businessName ++
  " into an AI-powered industry leader through strategic automation and intelligent decision-making systems."

/-- Static quickWins content of the client fallbackPlan
(part_002 lines 554-567): two entries. -/
def fallbackQuickWins : List Json :=
  [ .object
      [ ("action", .str "Implement AI chatbot for customer service"),
        ("impact", .str "24/7 customer support with 60% cost reduction"),
        ("tools", .array [.str "ChatGPT API", .str "Intercom", .str "Zendesk"]),
        ("timeframe", .str "30 days") ],
    .object
      [ ("action", .str "Automate data entry and reporting"),
        ("impact", .str "Save 15+ hours per week on manual tasks"),
        ("tools", .array [.str "Zapier", .str "Microsoft Power Automate", .str "Google Apps Script"]),
        ("timeframe", .str "45 days") ] ]

/-- Static strategicInitiatives content of the client fallbackPlan
(part_002 lines 568-576): one entry. -/
def fallbackInitiatives : List Json :=
  [ .object
      [ ("initiative", .str "Predictive Analytics Platform"),
        ("description", .str "Implement AI-driven analytics to predict customer behavior and optimize business decisions"),
        ("timeframe", .str "3-6 months"),
        ("budget", .str "$15,000-30,000"),
        ("roi", .str "200-400% within 12 months") ] ]

/-- Embeds the hardcoded fallbackPlan object of generatePlan
(part_002 lines 552-577): an executive summary parameterized only by the
business name, two quick wins, and one strategic initiative. -/
def fallbackPlan (data : BusinessData) : Json :=
  .object
    [ ("executiveSummary", .str (clientFallbackSummary data)),
      ("quickWins", .array fallbackQuickWins),
      ("strategicInitiatives", .array fallbackInitiatives) ]

/-- Embeds the result of generatePlan (part_002 lines 485-584), the Plan
Synthesizer: one relay round trip through part_000 and callClaudeAPI, then
JSON.parse (the platform builtin, abstracted as the parse argument: none
models a parse exception). Any exception on the call-and-parse path is
absorbed by the inner catch, which substitutes fallbackPlan; a parsed
value is stored as the plan without any structural check. No retry occurs. -/
def planFromRelay (apiKey : Option String) (f : FetchOutcome)
    (parse : String → Option Json) (data : BusinessData) : Json :=
  match callClaudeAPI (relayPOST apiKey f) with
  | none => fallbackPlan data
  | some content =>
      match parse content with
      | none => fallbackPlan data
      | some j => j

/-- Checks that a JSON value is a string. -/
def isStr (j : Json) : Bool :=
  match j with
  | .str _ => true
  | _ => false

/-- Checks that every element of a JSON array satisfies the given check. -/
def allElems (j : Json) (p : Json → Bool) : Bool :=
  match j with
  | .array elems => elems.all p
  | _ => false

/-- Checks the quick-win element shape of the spec's data model: action,
impact and timeframe strings, a tools array of strings, and, when the
optional budget field is present, a string budget. -/
def isValidQuickWin (j : Json) : Bool :=
  (getField j "action").any isStr &&
  (getField j "impact").any isStr &&
  (getField j "timeframe").any isStr &&
  (getField j "tools").any (fun t => allElems t isStr) &&
  (match getField j "budget" with
   | none => true
   | some b => isStr b)

/-- Checks the required strategic-initiative shape: the five named string
fields. -/
def isValidInitiative (j : Json) : Bool :=
  (getField j "initiative").any isStr &&
  (getField j "description").any isStr &&
  (getField j "timeframe").any isStr &&
  (getField j "budget").any isStr &&
  (getField j "roi").any isStr

/-- Checks the implementation-roadmap shape of the spec's data model: an
object with the three named phase strings. -/
def isValidRoadmap (j : Json) : Bool :=
  (getField j "phase1").any isStr &&
  (getField j "phase2").any isStr &&
  (getField j "phase3").any isStr

/-- Checks the recommended-tooling element shape of the spec's data model:
tool, purpose and integration strings. -/
def isValidTechItem (j : Json) : Bool :=
  (getField j "tool").any isStr &&
  (getField j "purpose").any isStr &&
  (getField j "integration").any isStr

/-- Checks the success-metric element shape of the spec's data model:
metric, target and measurement strings. -/
def isValidMetric (j : Json) : Bool :=
  (getField j "metric").any isStr &&
  (getField j "target").any isStr &&
  (getField j "measurement").any isStr

/-- Modelled from the spec: structural validity of a GeneratedPlan per the
spec's data model, whose shape names six sections — executive summary
(text), quick-wins (ordered list of action, impact, tool list, timeframe,
optional budget), strategic initiatives (ordered list of name,
description, timeframe, budget, expected return), implementation roadmap
(three named phases), recommended tooling (ordered list of tool, purpose,
integration note), and success metrics (ordered list of metric, target,
measurement method). -/
def isStructurallyValidPlan (j : Json) : Bool :=
  (getField j "executiveSummary").any isStr &&
  (getField j "quickWins").any (fun q => allElems q isValidQuickWin) &&
  (getField j "strategicInitiatives").any (fun s => allElems s isValidInitiative) &&
  (getField j "implementationRoadmap").any isValidRoadmap &&
  (getField j "techStack").any (fun t => allElems t isValidTechItem) &&
  (getField j "successMetrics").any (fun m => allElems m isValidMetric)

/-! Wizard Flow Controller state machine (part_002 lines 475-598). -/

structure WizardStep where
  id : Int
  title : String
  description : String
  fields : List String
  icon : Option String := none
deriving DecidableEq, Repr

/-- Embeds businessWizardSteps (part_002 lines 29-65): the fixed list of
five step definitions. -/
def businessWizardSteps : List WizardStep :=
  [ { id := 1, title := "Business Foundation",
      description := "Define your core business model and target market",
      fields := ["businessName", "industry", "targetMarket", "currentRevenue"],
      icon := some "🏢" },
    { id := 2, title := "Current Challenges",
      description := "Identify pain points and inefficiencies",
      fields := ["primaryChallenges", "timeWasters", "costCenters"],
      icon := some "⚠️" },
    { id := 3, title := "Competitive Analysis",
      description := "Understand your competitive landscape",
      fields := ["competitors", "differentiators", "marketPosition"],
      icon := some "🎯" },
    { id := 4, title := "AI Strategy Planning",
      description := "Define your AI implementation strategy",
      fields := ["aiGoals", "budget", "timeline", "teamReadiness"],
      icon := some "🤖" },
    { id := 5, title := "Success Metrics",
      description := "Set measurable goals and KPIs",
      fields := ["kpis", "successCriteria", "reportingFrequency"],
      icon := some "📊" } ]

/-- State of the BusinessWizard component (part_002 lines 476-479). -/
structure WizardState where
  currentStep : Int
  formData : BusinessData
  generatedPlan : Option Json
  loading : Bool

/-- Initial wizard state (part_002 lines 476-479): step 1, empty answers,
no plan, not loading. -/
def initialWizardState : WizardState :=
  { currentStep := 1, formData := {}, generatedPlan := none, loading := false }

/-- Observable events emitted while advancing: the Plan Synthesizer
invocation (with the answer record it receives) and each write to the
loading flag. -/
inductive WizardEvent
  | synthCall (data : BusinessData)
  | setLoading (b : Bool)
deriving DecidableEq, Repr

/-- Embeds one run of generatePlan (part_002 lines 485-584) as a state
update plus its event trace: loading is set true on entry and false in the
finally block; exactly one relay round trip happens in between; the result
(parsed plan or fallback) is stored in generatedPlan. -/
def runGeneratePlan (s : WizardState) (apiKey : Option String)
    (f : FetchOutcome) (parse : String → Option Json) :
    WizardState × List WizardEvent :=
  ({ s with generatedPlan := some (planFromRelay apiKey f parse s.formData),
            loading := false },
   [.setLoading true, .synthCall s.formData, .setLoading false])

/-- Embeds handleNext (part_002 lines 586-592): below the last step the
step pointer is incremented and nothing else happens; at the last step
generatePlan is invoked with the full formData record. -/
def handleNext (s : WizardState) (apiKey : Option String)
    (f : FetchOutcome) (parse : String → Option Json) :
    WizardState × List WizardEvent :=
  if s.currentStep < (businessWizardSteps.length : Int) then
    ({ s with currentStep := s.currentStep + 1 }, [])
  else
    runGeneratePlan s apiKey f parse

/-- Embeds handlePrevious (part_002 lines 594-598): decrement the step
pointer when above 1, otherwise do nothing. -/
def handlePrevious (s : WizardState) : WizardState :=
  if s.currentStep > 1 then { s with currentStep := s.currentStep - 1 } else s

/-- Number of Plan Synthesizer invocations in an event trace. -/
def synthCalls (evs : List WizardEvent) : Nat :=
  (evs.filter fun e =>
    match e with
    | .synthCall _ => true
    | _ => false).length

/-- One user-driven controller operation: advancing (with the relay
environment that call would see) or retreating. -/
inductive WizardOp
  | next (apiKey : Option String) (f : FetchOutcome) (parse : String → Option Json)
  | prev

/-- Applies one controller operation to the state. -/
def applyOp (s : WizardState) : WizardOp → WizardState
  | .next apiKey f parse => (handleNext s apiKey f parse).1
  | .prev => handlePrevious s

/-- Runs a sequence of controller operations from the initial state. -/
def runWizard (ops : List WizardOp) : WizardState :=
  ops.foldl applyOp initialWizardState

/-! Answer-record field operations (part_002 lines 162-179 and 481-483). -/

/-- Embeds updateFormData (part_002 lines 481-483) viewed through the
answer record's index signature: a shallow merge of one key is a pointwise
overwrite of that key. -/
def updateField (m : String → Option String) (k : String) (v : String) :
    String → Option String :=
  fun q => if q = k then some v else m q

/-- Embeds the tag add handler (part_002 lines 162-171): the input is
trimmed; it is appended only when non-empty and not already present. -/
def addTag (tags : List String) (raw : String) : List String :=
  let v := jsTrim raw
  if v ≠ "" ∧ ¬ tags.contains v then tags ++ [v] else tags

/-- Embeds the tag remove handler (part_002 line 179):
value.filter keeping every position other than the clicked index. -/
def removeTag (tags : List String) (idx : Nat) : List String :=
  (tags.enum.filter fun p => p.1 ≠ idx).map fun p => p.2

/-- Concrete answer record used in end-to-end scenarios: the business name
and industry of the spec's scenario. -/
def acmeData : BusinessData :=
  { businessName := some "Acme", industry := some "Retail" }

/-! Helper lemmas. -/

theorem occursAt_nil_pat (l : List Char) : occursAt l [] = true := by
  cases l <;> rfl

theorem hasSub_nil_pat (l : List Char) : hasSub l [] = true := by
  cases l <;> simp [hasSub, occursAt]

theorem occursAt_append (sub post : List Char) : occursAt (sub ++ post) sub = true := by
  induction sub with
  | nil => exact occursAt_nil_pat post
  | cons b bs ih => simp [occursAt, ih]

theorem hasSub_here (sub post : List Char) : hasSub (sub ++ post) sub = true := by
  cases sub with
  | nil => exact hasSub_nil_pat post
  | cons b bs =>
    have h1 : hasSub ((b :: bs) ++ post) (b :: bs)
        = (occursAt ((b :: bs) ++ post) (b :: bs) || hasSub (bs ++ post) (b :: bs)) := rfl
    rw [h1, occursAt_append, Bool.true_or]

theorem hasSub_append (pre t sub : List Char) (h : hasSub t sub = true) :
    hasSub (pre ++ t) sub = true := by
  induction pre with
  | nil => simpa using h
  | cons c cs ih => simp [hasSub, Bool.or_eq_true]; right; exact ih

theorem strContainsB_of (s sub : String) (h : StrContains s sub) :
    strContainsB s sub = true := by
  obtain ⟨pre, post, rfl⟩ := h
  show hasSub (pre ++ sub ++ post).toList sub.toList = true
  have hl : (pre ++ sub ++ post).toList
      = pre.toList ++ (sub.toList ++ post.toList) := by
    simp [String.toList, String.data_append, List.append_assoc]
  rw [hl]
  exact hasSub_append _ _ _ (hasSub_here _ _)

/-! Claim theorems. -/

/-- C3: for every step value in 1..5 the Step Insight Provider returns the
non-empty step-specific insight with exactly the fixed 3 suggestions, and
for every step value outside 1..5 it returns the generic fallback insight
with the same 3 suggestions. -/
theorem stepInsights_spec (data : BusinessData) (step : Int) :
    (generateStepInsights data step).suggestions = fixedSuggestions ∧
    fixedSuggestions.length = 3 ∧
    (generateStepInsights data step).insights ≠ "" ∧
    (if 1 ≤ step ∧ step ≤ 5 then
       (generateStepInsights data step).insights ≠ genericInsight
     else
       (generateStepInsights data step).insights = genericInsight) := by
  have hins : (generateStepInsights data step).insights
      = jsOrStr (insightForStep step) genericInsight := rfl
  refine ⟨rfl, rfl, ?_, ?_⟩
  · rw [hins]
    by_cases h : 1 ≤ step ∧ step ≤ 5
    · obtain ⟨h1, h2⟩ := h
      interval_cases step <;> decide
    · have n1 : step ≠ 1 := by omega
      have n2 : step ≠ 2 := by omega
      have n3 : step ≠ 3 := by omega
      have n4 : step ≠ 4 := by omega
      have n5 : step ≠ 5 := by omega
      have hnone : insightForStep step = none := by
        simp [insightForStep, n1, n2, n3, n4, n5]
      rw [hnone]
      decide
  · by_cases h : 1 ≤ step ∧ step ≤ 5
    · rw [if_pos h, hins]
      obtain ⟨h1, h2⟩ := h
      interval_cases step <;> decide
    · rw [if_neg h, hins]
      have n1 : step ≠ 1 := by omega
      have n2 : step ≠ 2 := by omega
      have n3 : step ≠ 3 := by omega
      have n4 : step ≠ 4 := by omega
      have n5 : step ≠ 5 := by omega
      have hnone : insightForStep step = none := by
        simp [insightForStep, n1, n2, n3, n4, n5]
      rw [hnone]
      rfl

/-- C10: a schema-valid stepInsights request with the step field absent or
equal to 0 receives the step-1 insight (not the generic fallback), with
the fixed 3-item suggestion list. -/
theorem stepInsights_default_step (data : BusinessData) :
    wizardPOST { action := .stepInsights, data := data, step := none }
      = .insights
          { insights := "Based on your business foundation, consider focusing on B2B automation tools to scale efficiently.",
            suggestions := fixedSuggestions } ∧
    wizardPOST { action := .stepInsights, data := data, step := some 0 }
      = .insights
          { insights := "Based on your business foundation, consider focusing on B2B automation tools to scale efficiently.",
            suggestions := fixedSuggestions } ∧
    "Based on your business foundation, consider focusing on B2B automation tools to scale efficiently."
      ≠ genericInsight ∧
    fixedSuggestions.length = 3 := by
  refine ⟨rfl, rfl, by decide, rfl⟩

/-- C9: the generatePlan action of the wizard business route performs no
relay or external call (its embedding is a pure function of the request),
its response is determined by businessName and industry alone, and every
plan section other than the executive summary is the fixed static content. -/
theorem serverPlan_noninterference (r1 r2 : WizardRequest)
    (ha1 : r1.action = .generatePlan) (ha2 : r2.action = .generatePlan)
    (hn : r1.data.businessName = r2.data.businessName)
    (hi : r1.data.industry = r2.data.industry) :
    wizardPOST r1 = wizardPOST r2 ∧
    (generateBusinessPlan r1.data).quickWins = serverQuickWins ∧
    (generateBusinessPlan r1.data).strategicInitiatives = serverInitiatives ∧
    (generateBusinessPlan r1.data).implementationRoadmap = serverRoadmap ∧
    (generateBusinessPlan r1.data).techStack = serverTechStack ∧
    (generateBusinessPlan r1.data).successMetrics = serverMetrics ∧
    (generateBusinessPlan r1.data).competitiveAdvantages = serverAdvantages ∧
    (generateBusinessPlan r1.data).riskMitigation = serverRisks := by
  obtain ⟨a1, d1, s1⟩ := r1
  obtain ⟨a2, d2, s2⟩ := r2
  simp only at ha1 ha2 hn hi
  subst ha1
  subst ha2
  refine ⟨?_, rfl, rfl, rfl, rfl, rfl, rfl, rfl⟩
  simp only [wizardPOST]
  simp [generateBusinessPlan, serverSummary, hn, hi]

/-- C6 counterexample: invoking the relay without the credential yields the
ordinary per-request failure body (HTTP 500, success false, fallback true)
rather than anything fatal or distinguished: it has exactly the shape a
provider error produces, contradicting the claim. -/
theorem relayCredential_cex :
    isPerRequestFailure (relayPOST none (.response true 200 (some "hello"))) = true ∧
    isPerRequestFailure (relayPOST (some "key") (.response false 429 none)) = true :=
  ⟨rfl, rfl⟩

/-- C6 amended: the absent credential is absorbed by the relay's own catch
block and surfaced, for every fetch outcome, as the ordinary per-request
failure body carrying the diagnostic message; it is a per-request error,
not a fatal configuration error. -/
theorem relayCredential_amended (f : FetchOutcome) :
    relayPOST none f
      = { status := 500, success := false, content := none,
          errMsg := some "ANTHROPIC_API_KEY not configured", fallback := true } := rfl

/-- C9 witness: two concrete generatePlan requests agreeing on businessName
and industry but differing on targetMarket receive identical responses,
and the request's non-summary sections are the static content. -/
theorem serverPlan_noninterference_witness :
    wizardPOST { action := .generatePlan, data := acmeData, step := none }
      = wizardPOST { action := .generatePlan,
                     data := { acmeData with targetMarket := some "SMB" }, step := some 3 } ∧
    (generateBusinessPlan acmeData).quickWins = serverQuickWins ∧
    (generateBusinessPlan acmeData).strategicInitiatives = serverInitiatives ∧
    (generateBusinessPlan acmeData).implementationRoadmap = serverRoadmap ∧
    (generateBusinessPlan acmeData).techStack = serverTechStack ∧
    (generateBusinessPlan acmeData).successMetrics = serverMetrics ∧
    (generateBusinessPlan acmeData).competitiveAdvantages = serverAdvantages ∧
    (generateBusinessPlan acmeData).riskMitigation = serverRisks :=
  serverPlan_noninterference
    { action := .generatePlan, data := acmeData, step := none }
    { action := .generatePlan, data := { acmeData with targetMarket := some "SMB" }, step := some 3 }
    rfl rfl rfl rfl

/-- C8: retreat decrements the step pointer by exactly one when it is
above 1, and at step 1 it is a no-op leaving the whole controller state
(step pointer, answers, plan, loading flag) unchanged. -/
theorem handlePrevious_spec (s : WizardState) :
    (s.currentStep > 1 →
      handlePrevious s = { s with currentStep := s.currentStep - 1 }) ∧
    (s.currentStep = 1 → handlePrevious s = s) := by
  constructor
  · intro h
    simp [handlePrevious, h]
  · intro h
    simp [handlePrevious, h]

/-- C8 witness: retreat from step 3 reaches step 2 with nothing else
changed; retreat at step 1 leaves the state untouched. -/
theorem handlePrevious_spec_witness :
    handlePrevious { currentStep := 3, formData := acmeData, generatedPlan := none, loading := false }
      = { currentStep := 2, formData := acmeData, generatedPlan := none, loading := false } ∧
    handlePrevious { currentStep := 1, formData := acmeData, generatedPlan := none, loading := false }
      = { currentStep := 1, formData := acmeData, generatedPlan := none, loading := false } :=
  ⟨(handlePrevious_spec _).1 (by decide), (handlePrevious_spec _).2 rfl⟩

/-- Step-pointer effect of advance: increment strictly below 5, unchanged
at and above 5 (where generatePlan runs instead). -/
theorem handleNext_currentStep (s : WizardState) (apiKey : Option String)
    (f : FetchOutcome) (parse : String → Option Json) :
    ((handleNext s apiKey f parse).1).currentStep
      = if s.currentStep < 5 then s.currentStep + 1 else s.currentStep := by
  unfold handleNext
  rw [show ((businessWizardSteps.length : Nat) : Int) = 5 from rfl]
  by_cases h : s.currentStep < 5
  · rw [if_pos h, if_pos h]
  · rw [if_neg h, if_neg h]
    rfl

/-- Step-pointer effect of retreat: decrement strictly above 1, unchanged
otherwise. -/
theorem handlePrevious_currentStep (s : WizardState) :
    (handlePrevious s).currentStep
      = if 1 < s.currentStep then s.currentStep - 1 else s.currentStep := by
  unfold handlePrevious
  by_cases h : 1 < s.currentStep
  · rw [if_pos h, if_pos h]
  · rw [if_neg h, if_neg h]

theorem wizard_bounds_aux (ops : List WizardOp) (s : WizardState)
    (h1 : 1 ≤ s.currentStep) (h2 : s.currentStep ≤ 5) :
    1 ≤ (ops.foldl applyOp s).currentStep ∧ (ops.foldl applyOp s).currentStep ≤ 5 := by
  induction ops generalizing s with
  | nil => exact ⟨h1, h2⟩
  | cons op rest ih =>
    rw [List.foldl_cons]
    have hb : 1 ≤ (applyOp s op).currentStep ∧ (applyOp s op).currentStep ≤ 5 := by
      cases op with
      | next apiKey f parse =>
        have hc := handleNext_currentStep s apiKey f parse
        constructor <;>
          · simp only [applyOp]
            rw [hc]
            split <;> omega
      | prev =>
        have hc := handlePrevious_currentStep s
        constructor <;>
          · simp only [applyOp]
            rw [hc]
            split <;> omega
    exact ih _ hb.1 hb.2

/-- C5: from the initial state (step 1), any sequence of advance and
retreat operations keeps the step pointer within 1..5: never below 1,
never past 5. -/
theorem currentStep_bounds (ops : List WizardOp) :
    1 ≤ (runWizard ops).currentStep ∧ (runWizard ops).currentStep ≤ 5 :=
  wizard_bounds_aux ops initialWizardState (by decide) (by decide)

/-- C4: with the loading flag clear, advance below step 5 increments the
step pointer by one and performs no Plan Synthesizer call; at step 5 it
invokes the Plan Synthesizer exactly once with the full answers record,
with the loading flag set true on entry and false on resolution, and
stores the resulting plan (AI-sourced or fallback). -/
theorem handleNext_spec (s : WizardState) (apiKey : Option String)
    (f : FetchOutcome) (parse : String → Option Json)
    (hload : s.loading = false) :
    (s.currentStep < 5 →
      handleNext s apiKey f parse = ({ s with currentStep := s.currentStep + 1 }, [])) ∧
    (s.currentStep = 5 →
      (handleNext s apiKey f parse).2
          = [.setLoading true, .synthCall s.formData, .setLoading false] ∧
      synthCalls (handleNext s apiKey f parse).2 = 1 ∧
      ((handleNext s apiKey f parse).1).generatedPlan
          = some (planFromRelay apiKey f parse s.formData) ∧
      ((handleNext s apiKey f parse).1).loading = false) := by
  have h5 : ((businessWizardSteps.length : Nat) : Int) = 5 := rfl
  constructor
  · intro h
    unfold handleNext
    rw [h5, if_pos h]
  · intro h
    have hn : ¬ s.currentStep < ((businessWizardSteps.length : Nat) : Int) := by
      rw [h5]; omega
    unfold handleNext
    rw [if_neg hn]
    exact ⟨rfl, rfl, rfl, rfl⟩

/-- C4 witness: a concrete advance at step 3 only increments the pointer;
a concrete advance at step 5 emits exactly the loading true, synthesizer
call, loading false trace and stores the (here: fallback) plan. -/
theorem handleNext_spec_witness :
    handleNext { currentStep := 3, formData := acmeData, generatedPlan := none, loading := false }
        none (.networkError "down") (fun _ => none)
      = ({ currentStep := 4, formData := acmeData, generatedPlan := none, loading := false }, []) ∧
    (handleNext { currentStep := 5, formData := acmeData, generatedPlan := none, loading := false }
        none (.networkError "down") (fun _ => none)).2
      = [.setLoading true, .synthCall acmeData, .setLoading false] ∧
    synthCalls (handleNext { currentStep := 5, formData := acmeData, generatedPlan := none, loading := false }
        none (.networkError "down") (fun _ => none)).2 = 1 :=
  have h3 := handleNext_spec
    { currentStep := 3, formData := acmeData, generatedPlan := none, loading := false }
    none (.networkError "down") (fun _ => none) rfl
  have h5 := handleNext_spec
    { currentStep := 5, formData := acmeData, generatedPlan := none, loading := false }
    none (.networkError "down") (fun _ => none) rfl
  ⟨h3.1 (by decide), (h5.2 rfl).1, (h5.2 rfl).2.1⟩

theorem filter_enumFrom_keep (l : List String) (n m : Nat) (h : m < n) :
    ((l.enumFrom n).filter fun p => p.1 ≠ m).map (fun p => p.2) = l := by
  induction l generalizing n with
  | nil => rfl
  | cons a t ih =>
    rw [show ((a :: t).enumFrom n) = (n, a) :: t.enumFrom (n + 1) from rfl]
    rw [List.filter_cons]
    split
    · rw [List.map_cons, ih (n + 1) (by omega)]
    · next hcond =>
      exfalso
      apply hcond
      simp only [decide_eq_true_eq]
      omega

theorem removeTag_eq_eraseIdx_aux (l : List String) (n i : Nat) :
    ((l.enumFrom n).filter fun p => p.1 ≠ n + i).map (fun p => p.2) = l.eraseIdx i := by
  induction l generalizing n i with
  | nil => rfl
  | cons a t ih =>
    cases i with
    | zero =>
      simp only [Nat.add_zero]
      rw [show ((a :: t).enumFrom n) = (n, a) :: t.enumFrom (n + 1) from rfl]
      rw [List.filter_cons]
      split
      · next hcond => simp at hcond
      · exact filter_enumFrom_keep t (n + 1) n (by omega)
    | succ j =>
      rw [show ((a :: t).enumFrom n) = (n, a) :: t.enumFrom (n + 1) from rfl]
      rw [List.filter_cons]
      split
      · rw [List.map_cons]
        rw [show n + (j + 1) = n + 1 + j from by omega]
        exact congrArg (a :: ·) (ih (n + 1) j)
      · next hcond =>
        exfalso
        apply hcond
        simp only [decide_eq_true_eq]
        omega

theorem removeTag_eq_eraseIdx (tags : List String) (i : Nat) :
    removeTag tags i = tags.eraseIdx i := by
  have h := removeTag_eq_eraseIdx_aux tags 0 i
  simpa [removeTag, List.enum] using h

/-- C7: writing a field value via updateField and reading it back yields
exactly that value; appending a tag whose trimmed value is already present
leaves the tag list unchanged (set-like dedup); removing the tag at index
i yields the same list with exactly that element deleted, preserving the
relative order of the remaining tags. -/
theorem updateField_roundtrip (m : String → Option String) (k v : String)
    (tags tags2 : List String) (raw : String) (i : Nat)
    (hdup : tags.contains (jsTrim raw) = true) :
    updateField m k v k = some v ∧
    addTag tags raw = tags ∧
    removeTag tags2 i = tags2.eraseIdx i := by
  refine ⟨by simp [updateField], ?_, removeTag_eq_eraseIdx tags2 i⟩
  have hmem : jsTrim raw ∈ tags := List.mem_of_elem_eq_true hdup
  simp [addTag, hmem]

/-- C7 witness: concrete field write and read-back, duplicate tag append,
and removal at index 1 of a three-tag list. -/
theorem updateField_roundtrip_witness :
    updateField (fun _ => none) "businessName" "Acme" "businessName" = some "Acme" ∧
    addTag ["Manual processes", "Churn"] "Churn" = ["Manual processes", "Churn"] ∧
    removeTag ["a", "b", "c"] 1 = (["a", "b", "c"] : List String).eraseIdx 1 :=
  updateField_roundtrip (fun _ => none) "businessName" "Acme"
    ["Manual processes", "Churn"] ["a", "b", "c"] "Churn" 1 (by decide)

/-- C1 counterexample: the claim that every resolution is a structurally
valid GeneratedPlan fails on both branches. When the relay succeeds and
the returned text is valid JSON that is not the expected structure (here
the empty JSON object), the synthesizer resolves with that value as-is,
which is not structurally valid; and when the relay fails, it resolves
with the static fallback plan, which itself omits the implementation
roadmap, recommended tooling and success-metrics sections of the spec's
GeneratedPlan shape and so is not structurally valid either. -/
theorem planSynth_valid_cex :
    isStructurallyValidPlan
      (planFromRelay (some "key") (.response true 200 (some "\x7b\x7d"))
        (fun _ => some (.object [])) acmeData) = false ∧
    planFromRelay none (.networkError "down") (fun _ => some (.object [])) acmeData
      = fallbackPlan acmeData ∧
    isStructurallyValidPlan (fallbackPlan acmeData) = false :=
  ⟨rfl, rfl, rfl⟩

/-- C1 amended: the Plan Synthesizer never raises past its boundary and
performs no retry: for every relay outcome it resolves either with the
static fallback plan or, when the relay call succeeds and the returned
text parses as JSON, with exactly the parsed value, on which no structural
validation is performed. Neither branch guarantees the spec's
GeneratedPlan shape: the fallback itself omits the implementation
roadmap, recommended tooling and success-metrics sections, so it is not
structurally valid under that shape. -/
theorem planSynth_amended (apiKey : Option String) (f : FetchOutcome)
    (parse : String → Option Json) (data : BusinessData) :
    (planFromRelay apiKey f parse data = fallbackPlan data ∨
      ∃ c, callClaudeAPI (relayPOST apiKey f) = some c ∧
        parse c = some (planFromRelay apiKey f parse data)) ∧
    isStructurallyValidPlan (fallbackPlan data) = false := by
  constructor
  · cases hc : callClaudeAPI (relayPOST apiKey f) with
    | none => exact Or.inl (by simp [planFromRelay, hc])
    | some c =>
      cases hp : parse c with
      | none => exact Or.inl (by simp [planFromRelay, hc, hp])
      | some j => exact Or.inr ⟨c, rfl, by simp [planFromRelay, hc, hp]⟩
  · rfl

/-- C2 counterexample: with the credential unset and answers carrying both
a business name and an industry, the synthesizer's output is the client
fallback whose executive summary does not contain the industry at all, and
an absent business name is rendered as the literal text "undefined" rather
than generic phrasing: the claimed name-and-industry parameterization
fails. -/
theorem clientFallback_cex :
    planFromRelay none (.networkError "down") (fun _ => none) acmeData
      = fallbackPlan acmeData ∧
    getField (fallbackPlan acmeData) "executiveSummary"
      = some (.str (clientFallbackSummary acmeData)) ∧
    strContainsB (clientFallbackSummary acmeData) "Acme" = true ∧
    strContainsB (clientFallbackSummary acmeData) "Retail" = false ∧
    (¬ StrContains (clientFallbackSummary acmeData) "Retail") ∧
    clientFallbackSummary { businessName := none }
      = "Transform undefined into an AI-powered industry leader through strategic automation and intelligent decision-making systems." :=
  ⟨rfl, rfl, by decide, by decide,
    fun hcont => absurd (strContainsB_of _ _ hcont) (by decide), rfl⟩

/-- C2 amended: whenever the relay call fails (thrown transport error,
non-success body, or unset credential), the synthesizer output exactly
equals the static fallback plan, which is parameterized only by the
business name interpolated raw into the executive summary (rendered as the
literal text "undefined" when absent, not generic phrasing); the summary
contains the business name whenever one is present, the industry does not
parameterize the plan, and the quick-wins list has two entries. -/
theorem clientFallback_amended (apiKey : Option String) (f : FetchOutcome)
    (parse : String → Option Json) (data data2 : BusinessData) (n : String)
    (hfail : callClaudeAPI (relayPOST apiKey f) = none)
    (hname : data.businessName = some n)
    (hsame : data2.businessName = data.businessName) :
    planFromRelay apiKey f parse data = fallbackPlan data ∧
    fallbackPlan data2 = fallbackPlan data ∧
    StrContains (clientFallbackSummary data) n ∧
    getField (fallbackPlan data) "quickWins" = some (.array fallbackQuickWins) ∧
    fallbackQuickWins.length = 2 := by
  refine ⟨by simp [planFromRelay, hfail], ?_, ?_, rfl, rfl⟩
  · simp [fallbackPlan, clientFallbackSummary, hsame]
  · refine ⟨"Transform ",
      " into an AI-powered industry leader through strategic automation and intelligent decision-making systems.", ?_⟩
    simp [clientFallbackSummary, hname, jsInterp]

/-- C2 amended witness: concrete relay failure with the scenario record;
the second record shares the business name but no industry, and the
fallback plans coincide. -/
theorem clientFallback_amended_witness :
    planFromRelay none (.networkError "down") (fun _ => none) acmeData
      = fallbackPlan acmeData ∧
    fallbackPlan { businessName := some "Acme" } = fallbackPlan acmeData ∧
    StrContains (clientFallbackSummary acmeData) "Acme" ∧
    getField (fallbackPlan acmeData) "quickWins" = some (.array fallbackQuickWins) ∧
    fallbackQuickWins.length = 2 :=
  clientFallback_amended none (.networkError "down") (fun _ => none) acmeData
    { businessName := some "Acme" } "Acme" rfl rfl rfl

end WizardApp
